import Mathlib

/-
Shallow embedding of the BooksManage server (src/main.js), a Node.js
HTTP service that stores book records in a JSON array file (book.json)
and one text blob per record (書籍/book_{ordinal}.txt).

Modelling conventions:
* A parsed JSON object with string-valued fields is a partial map
  `String → Option String` (`none` = key absent / undefined).
* The route parameter `parseInt(pathname.split('/')[3])` is modelled by
  `JsNum`: `nan` for a NaN result, `int v` for an integer result.
  JS comparisons with NaN are both false; this is `jsLt` / `jsGe`.
* Disk state is `ServerState`: the parsed content of book.json plus the
  blob directory as a map from filename to content.
* fs success/failure is passed explicitly as Bool flags (`saveOk`,
  `blobOk`, `ioOk`); a failed write leaves the disk state unchanged.
-/

namespace BooksManage

/-- A parsed JSON object with string-valued fields, e.g. a request body. -/
abbrev BookObj := String → Option String

/-- The blob directory (書籍/): filename to file content. -/
abbrev BlobStore := String → Option String

/-- Persistent state of the server: parsed book.json plus the blob files. -/
structure ServerState where
  bookJson : List BookObj
  blobs : BlobStore

/-- Result of `parseInt` on the :index route segment. -/
inductive JsNum where
  | nan : JsNum
  | int : Int → JsNum

/-- JS `a < b` where `a` may be NaN (NaN comparisons are false). -/
def jsLt : JsNum → Int → Bool
  | .nan, _ => false
  | .int v, b => v < b

/-- JS `a >= b` where `a` may be NaN (NaN comparisons are false). -/
def jsGe : JsNum → Int → Bool
  | .nan, _ => false
  | .int v, b => b ≤ v

/-- JS `Array.prototype.splice` start normalisation: NaN converts to 0,
negative counts from the end clamped at 0, positive clamps at `len`. -/
def jsSpliceStart (len : Nat) : JsNum → Nat
  | .nan => 0
  | .int v => if v < 0 then ((len : Int) + v).toNat else min v.toNat len

/-- `books.splice(k, 1)`: the list with the element at `k` removed. -/
def spliceOne (l : List α) (k : Nat) : List α := l.take k ++ l.drop (k + 1)

/-- The blob filename `book_${index + 1}.txt` for a 0-based position
given as a plain Nat (the content routes match `\d+` so the index there
is a nonnegative integer). -/
def bookFileName (p : Nat) : String := "book_" ++ toString (p + 1) ++ ".txt"

/-- The blob filename computed by the DELETE handler,
`book_${index + 1}.txt`, where `index` may be NaN (`NaN + 1` is NaN and
interpolates as "NaN"). -/
def bookFileNameJs : JsNum → String
  | .nan => "book_NaN.txt"
  | .int v => "book_" ++ toString (v + 1) ++ ".txt"

/-- JS string truthiness test `!x` for an optional string field:
true when the field is absent (undefined) or the empty string. -/
def jsFalsy : Option String → Bool
  | none => true
  | some s => s = ""

/-- The ECMAScript WhiteSpace and LineTerminator characters stripped by
`String.prototype.trim`: TAB, LF, VT, FF, CR, SP, NBSP, LINE SEPARATOR,
PARAGRAPH SEPARATOR, ZWNBSP. -/
def jsWhitespace (c : Char) : Bool :=
  c = '\u0009' || c = '\u000a' || c = '\u000b' || c = '\u000c' ||
  c = '\u000d' || c = ' ' || c = '\u00a0' || c = '\u2028' ||
  c = '\u2029' || c = '\ufeff'

/-- JS `s.trim()`: strip leading and trailing whitespace. -/
def jsTrim (s : String) : String :=
  ⟨((s.data.dropWhile jsWhitespace).reverse.dropWhile jsWhitespace).reverse⟩

/-- The check `!data.f || data.f.trim() === ''` applied to a text field:
absent, empty, or whitespace-only. -/
def emptyField : Option String → Bool
  | none => true
  | some s => jsTrim s = ""

/-- The regex `^\d{4}-\d{2}-\d{2}$` from validateBookData: exactly ten
characters, digits in positions 0-3, 5-6, 8-9 and dashes at 4 and 7.
Format only; no calendar validity check. -/
def matchesDate (s : String) : Bool :=
  match s.data with
  | [a, b, c, d, e, f, g, h, i, j] =>
    a.isDigit && b.isDigit && c.isDigit && d.isDigit && e = '-' &&
    f.isDigit && g.isDigit && h = '-' && i.isDigit && j.isDigit
  | _ => false

/-- The check `!data.subDate || !/^\d{4}-\d{2}-\d{2}$/.test(data.subDate)`:
absent, or not matching the date pattern (the empty string never matches). -/
def badDate : Option String → Bool
  | none => true
  | some s => !matchesDate s

/-- Validation message for an empty book name. -/
def msgBook : String := "书籍名称不能为空"

/-- Validation message for an empty author. -/
def msgAuthor : String := "作者名不能为空"

/-- Validation message for an empty summary. -/
def msgSummary : String := "书籍简介不能为空"

/-- Validation message for a malformed publish date. -/
def msgDate : String := "发布日期格式不正确，应为YYYY-MM-DD"

/-- `validateBookData(data)` from src/main.js lines 157-174: accumulates
one message per violated rule, in the fixed order book name, author,
summary, subDate; never short-circuits. -/
def validateBookData (data : BookObj) : List String :=
  (if emptyField (data "book") then [msgBook] else []) ++
  (if emptyField (data "author") then [msgAuthor] else []) ++
  (if emptyField (data "summary") then [msgSummary] else []) ++
  (if badDate (data "subDate") then [msgDate] else [])

/-- What readBooks saw on disk: book.json missing, unparseable, or a
well-formed array. -/
inductive DiskRead where
  | missing : DiskRead
  | corrupt : DiskRead
  | good : List BookObj → DiskRead

/-- `readBooks()` from src/main.js lines 134-143: returns the parsed
array, or the empty array when the file is missing or JSON.parse throws;
the second component is the console.error diagnostic output. -/
def readBooks : DiskRead → List BookObj × List String
  | .missing => ([], ["读取书籍数据失败"])
  | .corrupt => ([], ["读取书籍数据失败"])
  | .good books => (books, [])

/-- `writeBooks(books)` from src/main.js lines 146-154: returns true on
success and false on an fs error (caught, reported to console.error,
never rethrown); the second component is the diagnostic output. -/
def writeBooks (ioOk : Bool) : Bool × List String :=
  if ioOk then (true, []) else (false, ["写入书籍数据失败"])

/-- Outcome of POST /api/books (create). `blobFailed` is the case where
writeBooks succeeded but the placeholder writeFileSync threw: the
exception lands in the surrounding catch (400 无效的JSON格式) with the
metadata already persisted. -/
inductive CreateResult where
  | invalid : List String → CreateResult
  | saveFailed : CreateResult
  | blobFailed : CreateResult
  | success : BookObj → CreateResult

/-- POST /api/books handler, src/main.js lines 238-275: validate, push,
writeBooks, then write the placeholder blob `book_${books.length}.txt`
containing `This is book NO.${books.length}` (length taken after the
push, i.e. the new record's 1-based ordinal). -/
def createBook (st : ServerState) (cand : BookObj) (saveOk blobOk : Bool) :
    CreateResult × ServerState :=
  let errors := validateBookData cand
  if errors.length > 0 then (.invalid errors, st)
  else
    let books := st.bookJson ++ [cand]
    if saveOk then
      let bookIndex := books.length
      let fname := "book_" ++ toString bookIndex ++ ".txt"
      if blobOk then
        (.success cand,
         ⟨books, fun n => if n = fname then
            some ("This is book NO." ++ toString bookIndex) else st.blobs n⟩)
      else
        (.blobFailed, ⟨books, st.blobs⟩)
    else (.saveFailed, st)

/-- Outcome of DELETE /api/books/:index. `success` carries
`books.splice(index, 1)[0]`, which is undefined (`none`) when the splice
removed nothing. -/
inductive DeleteResult where
  | notFound : DeleteResult
  | saveFailed : DeleteResult
  | success : Option BookObj → DeleteResult

/-- DELETE /api/books/:index handler, src/main.js lines 277-303: bounds
check `index < 0 || index >= books.length` (both false for NaN), splice,
writeBooks, then unlink `book_${index + 1}.txt` if it exists. -/
def deleteBook (st : ServerState) (idx : JsNum) (saveOk : Bool) :
    DeleteResult × ServerState :=
  let books := st.bookJson
  if jsLt idx 0 || jsGe idx books.length then
    (.notFound, st)
  else
    let k := jsSpliceStart books.length idx
    let removed := books[k]?
    let pruned := spliceOne books k
    if saveOk then
      let fname := bookFileNameJs idx
      (.success removed,
       ⟨pruned, fun n => if n = fname then none else st.blobs n⟩)
    else (.saveFailed, st)

/-- Outcome of PUT /api/books/:index. -/
inductive UpdateResult where
  | invalid : List String → UpdateResult
  | notFound : UpdateResult
  | saveFailed : UpdateResult
  | success : BookObj → UpdateResult

/-- PUT /api/books/:index handler, src/main.js lines 306-346: validate
first, then bounds check, then `books[index] = updatedBook` and
writeBooks. For a NaN index the assignment sets a non-index property, so
the serialized array is unchanged. The blob store is never touched. -/
def updateBook (st : ServerState) (idx : JsNum) (cand : BookObj)
    (saveOk : Bool) : UpdateResult × ServerState :=
  let errors := validateBookData cand
  if errors.length > 0 then (.invalid errors, st)
  else
    let books := st.bookJson
    if jsLt idx 0 || jsGe idx books.length then (.notFound, st)
    else
      let updated := match idx with
        | .nan => books
        | .int v => books.set v.toNat cand
      if saveOk then (.success cand, ⟨updated, st.blobs⟩)
      else (.saveFailed, st)

/-- The ?mode= query of the content read route: `sync` for mode=sync,
`async` for anything else (the default). -/
inductive ReadMode where
  | sync : ReadMode
  | async : ReadMode

/-- Outcome of GET /api/books/:index/content. -/
inductive ReadResult where
  | notFound : ReadResult
  | ok : ReadMode → String → ReadResult

/-- GET /api/books/:index/content handler, src/main.js lines 357-390:
no bounds check against the collection; both the sync path
(existsSync + readFileSync) and the async path (readFile, err ⇒ 404)
resolve `book_${index + 1}.txt` and return 404 exactly when the file is
absent (assuming reads of existing files succeed). -/
def readContent (st : ServerState) (p : Nat) (mode : ReadMode) : ReadResult :=
  match st.blobs (bookFileName p) with
  | none => .notFound
  | some c => .ok mode c

/-- Outcome of POST /api/books/:index/content. `emptyContent` is the
400 内容不能为空 response; `ioError` is the 500 写入失败 response. -/
inductive WriteResult where
  | emptyContent : WriteResult
  | ioError : WriteResult
  | ok : WriteResult

/-- POST /api/books/:index/content handler, src/main.js lines 393-426:
no bounds check against the collection; rejects falsy content
(`!content`, for a string: the empty string) before any write, else
writes `book_${index + 1}.txt`. -/
def writeContent (st : ServerState) (p : Nat) (content : String)
    (ioOk : Bool) : WriteResult × ServerState :=
  if content = "" then (.emptyContent, st)
  else if ioOk then
    (.ok, ⟨st.bookJson, fun n => if n = bookFileName p then some content
                                 else st.blobs n⟩)
  else (.ioError, st)

/-- The server state with an empty collection and no blob files. -/
def emptyState : ServerState := ⟨[], fun _ => none⟩

/-- A candidate that passes validateBookData, using the key names the
code reads: book, author, summary, subDate. -/
def candValid : BookObj := fun k =>
  if k = "book" then some "A"
  else if k = "author" then some "B"
  else if k = "summary" then some "C"
  else if k = "subDate" then some "2024-01-01"
  else none

/-- A candidate carrying exactly the key names the spec document uses:
title, author, summary, publishDate. -/
def candSpecKeys : BookObj := fun k =>
  if k = "title" then some "A"
  else if k = "author" then some "B"
  else if k = "summary" then some "C"
  else if k = "publishDate" then some "2024-01-01"
  else none


/-- A second valid candidate, used to build concrete multi-record states. -/
def candValid2 : BookObj := fun k =>
  if k = "book" then some "D"
  else if k = "author" then some "E"
  else if k = "summary" then some "F"
  else if k = "subDate" then some "2023-05-07"
  else none

/-- A state with one record and no blob files. -/
def oneBookState : ServerState := ⟨[candValid], fun _ => none⟩

/-- A state with two records and their two blob files. -/
def twoBookState : ServerState :=
  ⟨[candValid, candValid2],
   fun n => if n = bookFileName 0 then some "b1"
            else if n = bookFileName 1 then some "b2" else none⟩

/-- A candidate whose only field is a date that is pattern-valid but not
a calendar date. -/
def candBadFields : BookObj := fun k =>
  if k = "subDate" then some "2024-13-99" else none

/-- Removing the element at an in-bounds position shortens the list by
exactly one. -/
theorem spliceOne_length {α : Type} {l : List α} {k : Nat}
    (h : k < l.length) : (spliceOne l k).length + 1 = l.length := by
  simp [spliceOne]
  omega

/-- Positions before the removed one are unchanged by spliceOne. -/
theorem spliceOne_getElem_lt {α : Type} {l : List α} {k i : Nat}
    (hik : i < k) : (spliceOne l k)[i]? = l[i]? := by
  by_cases hk : k ≤ l.length
  · rw [spliceOne, List.getElem?_append_left, List.getElem?_take, if_pos hik]
    simp [List.length_take]
    omega
  · simp only [spliceOne]
    rw [List.take_of_length_le (by omega), List.drop_of_length_le (by omega)]
    simp
/-- Positions at or after the removed one shift down by exactly one. -/
theorem spliceOne_getElem_ge {α : Type} {l : List α} {k i : Nat}
    (hk : k < l.length) (hik : k ≤ i) : (spliceOne l k)[i]? = l[i + 1]? := by
  have ht : (l.take k).length = k := by
    simp [List.length_take]
    omega
  rw [spliceOne, List.getElem?_append_right (by omega), List.getElem?_drop]
  congr 1
  omega

/-- For a nonnegative index the DELETE handler's filename agrees with the
filename used by the content routes. -/
theorem bookFileNameJs_int (p : Nat) :
    bookFileNameJs (.int p) = bookFileName p := rfl

/-- Claim C7: writeContent(p, X) with non-empty X followed by
readContent(p, mode) returns X in both modes, because both paths derive
the blob filename `book_${p + 1}.txt` by the same pure function
`bookFileName`. -/
theorem write_then_read_roundtrip (st : ServerState) (p : Nat) (x : String)
    (hx : x ≠ "") (mode : ReadMode) :
    readContent (writeContent st p x true).2 p mode = .ok mode x ∧
    (writeContent st p x true).2.blobs (bookFileName p) = some x := by
  simp [writeContent, hx, readContent]

/-- Witness for C7: round trip at position 0 with content "X", checked
in both sync and async mode. -/
theorem write_then_read_roundtrip_witness :
    readContent (writeContent emptyState 0 "X" true).2 0 .sync =
      .ok .sync "X" ∧
    readContent (writeContent emptyState 0 "X" true).2 0 .async =
      .ok .async "X" :=
  ⟨(write_then_read_roundtrip emptyState 0 "X" (by decide) .sync).1,
   (write_then_read_roundtrip emptyState 0 "X" (by decide) .async).1⟩

/-- Claim C8: readBooks substitutes the empty collection and emits a
diagnostic when book.json is missing or unparseable (it is a total
function: no error propagates), and writeBooks reports I/O failure as
the returned value false (with a diagnostic), not as an exception. -/
theorem readBooks_writeBooks_failure_handling (d : DiskRead) (ioOk : Bool) :
    ((d = .missing ∨ d = .corrupt) →
      (readBooks d).1 = [] ∧ (readBooks d).2 ≠ []) ∧
    ((writeBooks ioOk).1 = true ↔ ioOk = true) ∧
    (ioOk = false → (writeBooks ioOk).1 = false ∧ (writeBooks ioOk).2 ≠ []) := by
  refine ⟨?_, ?_, ?_⟩
  · rintro (rfl | rfl) <;> exact ⟨rfl, by simp [readBooks]⟩
  · cases ioOk <;> simp [writeBooks]
  · rintro rfl
    exact ⟨rfl, by simp [writeBooks]⟩

/-- Witness for C8: a missing book.json reads as the empty collection
with a diagnostic, and a failed writeBooks returns false. -/
theorem readBooks_writeBooks_failure_handling_witness :
    ((readBooks .missing).1 = [] ∧ (readBooks .missing).2 ≠ []) ∧
    (writeBooks false).1 = false :=
  ⟨(readBooks_writeBooks_failure_handling .missing false).1 (Or.inl rfl),
   ((readBooks_writeBooks_failure_handling .missing false).2.2 rfl).1⟩

/-- Claim C9: writing empty content is rejected by the dedicated falsy
check (400 内容不能为空) before any fs call — a result distinct from the
I/O failure result (500 写入失败) — and the state, in particular the blob
file for p, is unchanged. -/
theorem writeContent_empty_rejected (st : ServerState) (p : Nat)
    (ioOk : Bool) :
    writeContent st p "" ioOk = (.emptyContent, st) ∧
    WriteResult.emptyContent ≠ WriteResult.ioError :=
  ⟨rfl, fun h => WriteResult.noConfusion h⟩

/-- Claim C10: on a non-empty collection, DELETE with a NaN index (e.g.
parseInt("abc")) is not a 404: NaN fails both bounds comparisons,
splice(NaN, 1) removes the record at position 0, and the handler answers
success carrying that first record. -/
theorem delete_nan_removes_first (st : ServerState) (h : st.bookJson ≠ []) :
    (deleteBook st .nan true).1 = .success st.bookJson.head? ∧
    st.bookJson.head?.isSome = true ∧
    (deleteBook st .nan true).2.bookJson = st.bookJson.tail ∧
    (deleteBook st .nan true).1 ≠ .notFound := by
  cases hb : st.bookJson with
  | nil => exact absurd hb h
  | cons b rest =>
    refine ⟨?_, ?_, ?_, ?_⟩ <;>
      simp [deleteBook, jsLt, jsGe, jsSpliceStart, spliceOne, hb]

/-- Witness for C10: deleting index NaN from a one-record collection
succeeds and removes that record. -/
theorem delete_nan_removes_first_witness :
    (deleteBook oneBookState .nan true).1 =
      .success oneBookState.bookJson.head? ∧
    oneBookState.bookJson.head?.isSome = true ∧
    (deleteBook oneBookState .nan true).2.bookJson =
      oneBookState.bookJson.tail ∧
    (deleteBook oneBookState .nan true).1 ≠ .notFound :=
  delete_nan_removes_first oneBookState (by simp [oneBookState])


/-- Claim C2: deleting an in-bounds position p removes exactly the
record at p (length drops by one, earlier records stay, later records
shift down by one), persists the shortened collection, and unlinks only
the blob file named for the pre-deletion 1-based ordinal p + 1; every
other blob file is untouched. -/
theorem delete_in_bounds (st : ServerState) (p : Nat)
    (hp : p < st.bookJson.length) :
    (deleteBook st (.int p) true).1 = .success st.bookJson[p]? ∧
    (deleteBook st (.int p) true).2.bookJson.length + 1 =
      st.bookJson.length ∧
    (∀ i, i < p →
      (deleteBook st (.int p) true).2.bookJson[i]? = st.bookJson[i]?) ∧
    (∀ i, p ≤ i →
      (deleteBook st (.int p) true).2.bookJson[i]? = st.bookJson[i + 1]?) ∧
    (deleteBook st (.int p) true).2.blobs (bookFileName p) = none ∧
    (∀ n, n ≠ bookFileName p →
      (deleteBook st (.int p) true).2.blobs n = st.blobs n) := by
  have hlt : jsLt (.int p) 0 = false := by simp [jsLt]
  have hge : jsGe (.int p) (st.bookJson.length : Int) = false := by
    simp [jsGe]
    omega
  have hk : jsSpliceStart st.bookJson.length (.int p) = p := by
    rw [jsSpliceStart, if_neg (by omega)]
    omega
  have hres : deleteBook st (.int p) true =
      (.success st.bookJson[p]?,
       ⟨spliceOne st.bookJson p,
        fun n => if n = bookFileNameJs (.int p) then none else st.blobs n⟩) := by
    simp [deleteBook, hlt, hge, hk]
  rw [hres]
  refine ⟨rfl, spliceOne_length hp, ?_, ?_, ?_, ?_⟩
  · intro i hi
    exact spliceOne_getElem_lt hi
  · intro i hi
    exact spliceOne_getElem_ge hp hi
  · simp [bookFileNameJs_int]
  · intro n hn
    simp [bookFileNameJs_int, hn]

/-- Witness for C2: deleting position 1 of a two-record collection keeps
record 0, drops the second record, and unlinks book_2.txt only. -/
theorem delete_in_bounds_witness :
    (deleteBook twoBookState (.int 1) true).1 =
      .success twoBookState.bookJson[1]? ∧
    (deleteBook twoBookState (.int 1) true).2.bookJson.length + 1 =
      twoBookState.bookJson.length ∧
    (deleteBook twoBookState (.int 1) true).2.blobs (bookFileName 1) =
      none :=
  ⟨(delete_in_bounds twoBookState 1 (by decide)).1,
   (delete_in_bounds twoBookState 1 (by decide)).2.1,
   (delete_in_bounds twoBookState 1 (by decide)).2.2.2.2.1⟩

/-- Claim C3: the validator reports exactly one message per violated
rule and nothing else, in the fixed source order book name (the spec's
title field), author, summary, subDate (the spec's publishDate field);
it never short-circuits (each message appears iff its own rule is
violated, independent of the others); the three text rules are
emptiness-after-trim, and the date rule is the bare pattern
`\d{4}-\d{2}-\d{2}`, so the non-calendar date "2024-13-99" produces no
date violation. -/
theorem validateBookData_spec (data : BookObj) :
    (msgBook ∈ validateBookData data ↔ emptyField (data "book") = true) ∧
    (msgAuthor ∈ validateBookData data ↔
      emptyField (data "author") = true) ∧
    (msgSummary ∈ validateBookData data ↔
      emptyField (data "summary") = true) ∧
    (msgDate ∈ validateBookData data ↔ badDate (data "subDate") = true) ∧
    List.Sublist (validateBookData data)
      [msgBook, msgAuthor, msgSummary, msgDate] ∧
    (∀ s, emptyField (some s) = decide (jsTrim s = "")) ∧
    (∀ s, badDate (some s) = !matchesDate s) ∧
    matchesDate "2024-13-99" = true ∧
    (data "subDate" = some "2024-13-99" →
      msgDate ∉ validateBookData data) := by
  cases h1 : emptyField (data "book") <;>
    cases h2 : emptyField (data "author") <;>
      cases h3 : emptyField (data "summary") <;>
        cases h4 : badDate (data "subDate") <;>
          refine ⟨?_, ?_, ?_, ?_, ?_, fun s => rfl, fun s => rfl,
            by decide, ?_⟩ <;>
          first
            | (intro h
               exact absurd h4 (by rw [h]; decide))
            | simp [validateBookData, h1, h2, h3, h4, msgBook, msgAuthor,
                msgSummary, msgDate]

/-- Witness for C3: a candidate with every text field absent and the
pattern-valid non-calendar date "2024-13-99" gets exactly the three
text-field messages, in order, and no date message. -/
theorem validateBookData_spec_witness :
    msgBook ∈ validateBookData candBadFields ∧
    msgDate ∉ validateBookData candBadFields :=
  ⟨(validateBookData_spec candBadFields).1.mpr (by decide),
   (validateBookData_spec candBadFields).2.2.2.2.2.2.2.2 (by decide)⟩


/-- Claim C1 counterexample: the spec's "bounds checking throughout" does
not hold for the content routes. On the empty collection (every position
is out of range) writeContent at position 5 succeeds instead of
returning NotFound, and readContent at position 5 then succeeds too. -/
theorem position_bounds_counterexample :
    emptyState.bookJson.length = 0 ∧
    (writeContent emptyState 5 "X" true).1 = WriteResult.ok ∧
    readContent (writeContent emptyState 5 "X" true).2 5 .sync =
      .ok .sync "X" := by
  refine ⟨rfl, rfl, rfl⟩

/-- Claim C1 amended: update and delete bounds-check (integer position
valid iff 0 ≤ p < collection.length; out of range is NotFound with no
state change, for update given a candidate that passes validation), but
the content routes never consult the collection: readContent is NotFound
exactly when the blob file for p is absent, and writeContent with
non-empty content succeeds at any position. -/
theorem position_bounds_amended (st : ServerState) (v : Int) (p : Nat)
    (cand : BookObj) (mode : ReadMode) (saveOk : Bool)
    (hout : v < 0 ∨ (st.bookJson.length : Int) ≤ v)
    (hvalid : validateBookData cand = []) :
    deleteBook st (.int v) saveOk = (.notFound, st) ∧
    updateBook st (.int v) cand saveOk = (.notFound, st) ∧
    (readContent st p mode = .notFound ↔
      st.blobs (bookFileName p) = none) ∧
    (∀ c : String, c ≠ "" → (writeContent st p c true).1 = .ok) := by
  have hc : (jsLt (.int v) 0 || jsGe (.int v) (st.bookJson.length : Int)) =
      true := by
    simp [jsLt, jsGe]
    omega
  refine ⟨?_, ?_, ?_, ?_⟩
  · simp [deleteBook, hc]
  · simp [updateBook, hvalid, hc]
  · cases hb : st.blobs (bookFileName p) <;> simp [readContent, hb]
  · intro c hcne
    simp [writeContent, hcne]

/-- Witness for C1 amended: at position 5 past a one-record collection,
delete and update answer NotFound, reading the absent blob is NotFound,
and writing "X" succeeds anyway. -/
theorem position_bounds_amended_witness :
    deleteBook oneBookState (.int 5) true = (.notFound, oneBookState) ∧
    updateBook oneBookState (.int 5) candValid true =
      (.notFound, oneBookState) ∧
    (readContent oneBookState 5 .sync = .notFound ↔
      oneBookState.blobs (bookFileName 5) = none) ∧
    (∀ c : String, c ≠ "" →
      (writeContent oneBookState 5 c true).1 = .ok) :=
  position_bounds_amended oneBookState 5 5 candValid .sync true
    (Or.inr (by decide)) (by decide)

/-- Claim C4: update validates before bounds-checking: an invalid
candidate gets the full validation error list even at an out-of-range
position; a valid candidate at an out-of-range position gets NotFound;
and a valid candidate at an in-bounds position replaces the record in
place, leaving the blob store untouched. -/
theorem update_validates_before_bounds (st : ServerState) (v : Int)
    (cand : BookObj) :
    (validateBookData cand ≠ [] →
      updateBook st (.int v) cand true =
        (.invalid (validateBookData cand), st)) ∧
    (validateBookData cand = [] →
      (v < 0 ∨ (st.bookJson.length : Int) ≤ v) →
      updateBook st (.int v) cand true = (.notFound, st)) ∧
    (validateBookData cand = [] → 0 ≤ v →
      v < (st.bookJson.length : Int) →
      updateBook st (.int v) cand true =
        (.success cand, ⟨st.bookJson.set v.toNat cand, st.blobs⟩)) := by
  refine ⟨?_, ?_, ?_⟩
  · intro h
    have hl : 0 < (validateBookData cand).length := List.length_pos.mpr h
    simp [updateBook, hl]
  · intro h hout
    have hc : (jsLt (.int v) 0 ||
        jsGe (.int v) (st.bookJson.length : Int)) = true := by
      simp [jsLt, jsGe]
      omega
    simp [updateBook, h, hc]
  · intro h h0 hlen
    have hc : (jsLt (.int v) 0 ||
        jsGe (.int v) (st.bookJson.length : Int)) = false := by
      simp [jsLt, jsGe]
      omega
    simp [updateBook, h, hc]

/-- Witness for C4: a candidate with no fields sent to position 5 of a
one-record collection reports all four validation errors (not NotFound);
a valid candidate at position 5 reports NotFound; a valid candidate at
position 0 replaces the record. -/
theorem update_validates_before_bounds_witness :
    updateBook oneBookState (.int 5) candBadFields true =
      (.invalid (validateBookData candBadFields), oneBookState) ∧
    updateBook oneBookState (.int 5) candValid2 true =
      (.notFound, oneBookState) ∧
    updateBook oneBookState (.int 0) candValid2 true =
      (.success candValid2,
       ⟨oneBookState.bookJson.set 0 candValid2, oneBookState.blobs⟩) :=
  ⟨(update_validates_before_bounds oneBookState 5 candBadFields).1
     (by decide),
   (update_validates_before_bounds oneBookState 5 candValid2).2.1
     (by decide) (Or.inr (by decide)),
   (update_validates_before_bounds oneBookState 0 candValid2).2.2
     (by decide) (by decide) (by decide)⟩


/-- Claim C5: create with a valid candidate appends the record at the
end (length + 1, last element is the candidate), and only then writes
the placeholder blob for the new record, named and worded after its
1-based ordinal. The ordering is visible in the failure cases: if the
blob write fails the metadata is already persisted and no blob changes,
and if the metadata save fails nothing at all changes. -/
theorem create_appends (st : ServerState) (cand : BookObj)
    (hv : validateBookData cand = []) :
    (createBook st cand true true).1 = .success cand ∧
    (createBook st cand true true).2.bookJson = st.bookJson ++ [cand] ∧
    (createBook st cand true true).2.bookJson.length =
      st.bookJson.length + 1 ∧
    (createBook st cand true true).2.bookJson.getLast? = some cand ∧
    (createBook st cand true true).2.blobs
        (bookFileName st.bookJson.length) =
      some ("This is book NO." ++ toString (st.bookJson.length + 1)) ∧
    (∀ n, n ≠ bookFileName st.bookJson.length →
      (createBook st cand true true).2.blobs n = st.blobs n) ∧
    (createBook st cand true false).1 = .blobFailed ∧
    (createBook st cand true false).2.bookJson = st.bookJson ++ [cand] ∧
    (createBook st cand true false).2.blobs = st.blobs ∧
    createBook st cand false true = (.saveFailed, st) := by
  refine ⟨?_, ?_, ?_, ?_, ?_, ?_, ?_, ?_, ?_, ?_⟩
  · simp [createBook, hv]
  · simp [createBook, hv]
  · simp [createBook, hv]
  · simp [createBook, hv]
  · simp [createBook, hv, bookFileName]
  · intro n hn
    simp only [bookFileName] at hn
    simp [createBook, hv, hn]
  · simp [createBook, hv]
  · simp [createBook, hv]
  · simp [createBook, hv]
  · simp [createBook, hv]

/-- Witness for C5: the concrete scenario of the spec — create on the
empty collection yields length 1 and the blob for position 0 holds the
placeholder referencing ordinal 1. -/
theorem create_appends_witness :
    (createBook emptyState candValid true true).1 = .success candValid ∧
    (createBook emptyState candValid true true).2.bookJson.length = 1 ∧
    (createBook emptyState candValid true true).2.blobs (bookFileName 0) =
      some "This is book NO.1" :=
  ⟨(create_appends emptyState candValid (by decide)).1,
   (create_appends emptyState candValid (by decide)).2.2.1,
   (create_appends emptyState candValid (by decide)).2.2.2.2.1⟩

/-- Claim C6 counterexample: the persisted records do not carry the keys
title/author/summary/publishDate, and the validator does not read
title/publishDate. A candidate whose keys are exactly the spec's four
names fails validation, while the accepted (and persisted, unchanged)
candidate carries the keys book/author/summary/subDate and has no title
or publishDate key at all. -/
theorem persisted_keys_counterexample :
    validateBookData candSpecKeys ≠ [] ∧
    validateBookData candValid = [] ∧
    candValid "title" = none ∧
    candValid "publishDate" = none ∧
    (createBook emptyState candValid true true).2.bookJson = [candValid] := by
  refine ⟨by decide, by decide, rfl, rfl, rfl⟩

/-- Claim C6 amended: the exact key names read by the validator and
persisted on disk are book, author, summary, subDate: any candidate
passing validation carries at least these four keys (the three text
fields non-empty after trim, subDate matching the date pattern), the
validator's verdict depends on these four keys only, and create and
update persist the candidate object unchanged. -/
theorem persisted_keys_amended (cand : BookObj)
    (hv : validateBookData cand = []) :
    (∃ s, cand "book" = some s ∧ jsTrim s ≠ "") ∧
    (∃ s, cand "author" = some s ∧ jsTrim s ≠ "") ∧
    (∃ s, cand "summary" = some s ∧ jsTrim s ≠ "") ∧
    (∃ s, cand "subDate" = some s ∧ matchesDate s = true) ∧
    (∀ st : ServerState,
      (createBook st cand true true).2.bookJson = st.bookJson ++ [cand]) ∧
    (∀ st : ServerState, ∀ v : Int, 0 ≤ v →
      v < (st.bookJson.length : Int) →
      (updateBook st (.int v) cand true).2.bookJson =
        st.bookJson.set v.toNat cand) ∧
    (∀ d : BookObj, d "book" = cand "book" → d "author" = cand "author" →
      d "summary" = cand "summary" → d "subDate" = cand "subDate" →
      validateBookData d = validateBookData cand) := by
  have hb : emptyField (cand "book") = false := by
    by_contra hcon
    rw [Bool.not_eq_false] at hcon
    simp [validateBookData, hcon] at hv
  have ha : emptyField (cand "author") = false := by
    by_contra hcon
    rw [Bool.not_eq_false] at hcon
    simp [validateBookData, hcon] at hv
  have hs : emptyField (cand "summary") = false := by
    by_contra hcon
    rw [Bool.not_eq_false] at hcon
    simp [validateBookData, hcon] at hv
  have hd : badDate (cand "subDate") = false := by
    by_contra hcon
    rw [Bool.not_eq_false] at hcon
    simp [validateBookData, hcon] at hv
  have exText : ∀ o : Option String, emptyField o = false →
      ∃ s, o = some s ∧ jsTrim s ≠ "" := by
    intro o ho
    cases o with
    | none => simp [emptyField] at ho
    | some s =>
      refine ⟨s, rfl, ?_⟩
      simpa [emptyField] using ho
  have exDate : ∀ o : Option String, badDate o = false →
      ∃ s, o = some s ∧ matchesDate s = true := by
    intro o ho
    cases o with
    | none => simp [badDate] at ho
    | some s =>
      refine ⟨s, rfl, ?_⟩
      simpa [badDate] using ho
  refine ⟨exText _ hb, exText _ ha, exText _ hs, exDate _ hd, ?_, ?_, ?_⟩
  · intro st
    simp [createBook, hv]
  · intro st v h0 hlen
    have hc : (jsLt (.int v) 0 ||
        jsGe (.int v) (st.bookJson.length : Int)) = false := by
      simp [jsLt, jsGe]
      omega
    simp [updateBook, hv, hc]
  · intro d e1 e2 e3 e4
    simp [validateBookData, e1, e2, e3, e4]

/-- Witness for C6 amended: the valid candidate with code key names
carries its four keys and is appended unchanged by create. -/
theorem persisted_keys_amended_witness :
    (∃ s, candValid "book" = some s ∧ jsTrim s ≠ "") ∧
    (createBook emptyState candValid true true).2.bookJson =
      emptyState.bookJson ++ [candValid] :=
  ⟨(persisted_keys_amended candValid (by decide)).1,
   (persisted_keys_amended candValid (by decide)).2.2.2.2.1 emptyState⟩

end BooksManage
